import Mathlib

/-!
Verification of the ledger core of the Banking-App repository.

Monetary values (`DecimalField(max_digits=12, decimal_places=2)`) are
represented exactly as integer numbers of cents, so the form bound
`min_value=0.01` becomes `1 ≤ amount` and the 12-digit cap
`9999999999.99` becomes `amount ≤ 999999999999`.

The shallow embedding follows `accounts/models.py` (the Account ledger),
`transactions/models.py` (the Transaction record),
`transactions/forms.py` (form validation) and `transactions/views.py`
(the deposit / withdraw / transfer request flows).  The database is a
`Bank`: a list of accounts plus the list of transaction records;
`Account.objects.get(account_number=…, status='Active')` becomes
`Bank.getActive`, and `Model.save()` becomes `Bank.save`, which replaces
the row with the matching account number.
-/

namespace BankApp

/-- `Account.STATUS_CHOICES` in `accounts/models.py`. -/
inductive Status where
  | Active
  | Inactive
  | Closed
deriving DecidableEq, Repr

/-- `Transaction.TRANSACTION_TYPE_CHOICES` in `transactions/models.py`. -/
inductive TransactionType where
  | Deposit
  | Withdrawal
  | Transfer
  | Interest
deriving DecidableEq, Repr

/-- `Transaction.STATUS_CHOICES` in `transactions/models.py`. -/
inductive TransactionStatus where
  | Pending
  | Completed
  | Failed
deriving DecidableEq, Repr

/-- The fields of `Account` (accounts/models.py) that the ledger logic
reads or writes: business key, status, balance (in cents) and PIN. -/
structure Account where
  account_number : String
  status : Status
  balance : Int
  pin : String
deriving DecidableEq, Repr

/-- The fields of `Transaction` (transactions/models.py) relevant to the
core flows; the account references are by business key, `none` standing
for a NULL foreign key. -/
structure Transaction where
  transaction_type : TransactionType
  amount : Int
  from_account : Option String
  to_account : Option String
  balance_after_transaction : Option Int
  status : TransactionStatus
deriving DecidableEq, Repr

/-- `Account.can_withdraw` (accounts/models.py, lines 160-174):
`self.status == 'Active' and self.balance >= amount`. -/
def Account.can_withdraw (a : Account) (amount : Int) : Bool :=
  decide (a.status = Status.Active) && decide (a.balance ≥ amount)

/-- `Account.deposit` (accounts/models.py, lines 176-197): if the account
is Active, `balance += amount` and save, returning True; otherwise
return False without mutating.  Note there is no sign check on
`amount`. -/
def Account.deposit (a : Account) (amount : Int) : Bool × Account :=
  if a.status = Status.Active then
    (true, { a with balance := a.balance + amount })
  else
    (false, a)

/-- `Account.withdraw` (accounts/models.py, lines 199-220): if
`can_withdraw(amount)`, `balance -= amount` and save, returning True;
otherwise return False without mutating. -/
def Account.withdraw (a : Account) (amount : Int) : Bool × Account :=
  if a.can_withdraw amount then
    (true, { a with balance := a.balance - amount })
  else
    (false, a)

/-- The database state: the account rows and the transaction rows.  New
transaction rows are consed at the front (the model orders by
`-created_at`, newest first). -/
structure Bank where
  accounts : List Account
  transactions : List Transaction
deriving Repr

/-- `Account.objects.get(account_number=n, status='Active')`, the lookup
used by `login_required`, the forms' `clean` methods, and the
`select_for_update().get(...)` calls in the transfer view.  `none`
models the `Account.DoesNotExist` exception. -/
def Bank.getActive (b : Bank) (n : String) : Option Account :=
  b.accounts.find? fun a =>
    decide (a.account_number = n) && decide (a.status = Status.Active)

/-- `Model.save()` on an account: replace the row whose business key
matches `a.account_number` by `a`. -/
def Bank.save (b : Bank) (a : Account) : Bank :=
  { b with
    accounts := b.accounts.map fun x =>
      if x.account_number = a.account_number then a else x }

/-- `Transaction.objects.create(...)`: append a new transaction row. -/
def Bank.record (b : Bank) (t : Transaction) : Bank :=
  { b with transactions := t :: b.transactions }

/-- `DepositForm` validity (transactions/forms.py, lines 15-76):
`amount` is a 2-place decimal in `[0.01, 9999999999.99]` and
`clean_account_number` requires the submitted account number to resolve
to an Active account. -/
def depositFormValid (b : Bank) (account_number : String) (amount : Int) : Bool :=
  decide (1 ≤ amount) && decide (amount ≤ 999999999999) &&
    (b.getActive account_number).isSome

/-- `WithdrawalForm.clean` (transactions/forms.py, lines 79-164): the
amount bounds, the submitted account number resolves to an Active
account, the PIN matches, and that account's balance covers the
amount. -/
def withdrawFormValid (b : Bank) (account_number pin : String) (amount : Int) : Bool :=
  decide (1 ≤ amount) && decide (amount ≤ 999999999999) &&
    match b.getActive account_number with
    | some acc => decide (acc.pin = pin) && decide (acc.balance ≥ amount)
    | none => false

/-- `TransferForm.clean` (transactions/forms.py, lines 167-269): the
amount bounds, source and destination account numbers differ, the
source resolves to an Active account whose PIN matches and whose
balance covers the amount, and the destination resolves to an Active
account. -/
def transferFormValid (b : Bank) (from_number to_number pin : String)
    (amount : Int) : Bool :=
  decide (1 ≤ amount) && decide (amount ≤ 999999999999) &&
    decide (from_number ≠ to_number) &&
    (match b.getActive from_number with
     | some fa => decide (fa.pin = pin) && decide (fa.balance ≥ amount)
     | none => false) &&
    (b.getActive to_number).isSome

/-- The `deposit` view (transactions/views.py, lines 20-75) on a valid
POST.  `logged` is the session's account number; `login_required`
(accounts/decorators.py) resolves it with a `status='Active'` filter
and aborts the request if that fails.  On a valid form the view calls
`account.deposit(amount)` — ignoring its return value — and then
unconditionally creates a Completed Deposit record carrying only the
destination reference and the post-deposit balance.  Returns the new
database state and whether the flow succeeded (redirected home). -/
def depositView (b : Bank) (logged submitted : String) (amount : Int) :
    Bank × Bool :=
  match b.getActive logged with
  | none => (b, false)
  | some account =>
    if depositFormValid b submitted amount then
      let r := account.deposit amount
      let b1 := b.save r.2
      (b1.record
        { transaction_type := TransactionType.Deposit
          amount := amount
          from_account := none
          to_account := some r.2.account_number
          balance_after_transaction := some r.2.balance
          status := TransactionStatus.Completed }, true)
    else (b, false)

/-- The `withdraw` view (transactions/views.py, lines 78-134) on a valid
POST.  After form validation the view calls `account.withdraw(amount)`
and only if it returns True saves the debit and creates a Completed
Withdrawal record carrying only the source reference; on False it shows
an error and mutates nothing. -/
def withdrawView (b : Bank) (logged submitted pin : String) (amount : Int) :
    Bank × Bool :=
  match b.getActive logged with
  | none => (b, false)
  | some account =>
    if withdrawFormValid b submitted pin amount then
      let r := account.withdraw amount
      if r.1 then
        ((b.save r.2).record
          { transaction_type := TransactionType.Withdrawal
            amount := amount
            from_account := some r.2.account_number
            to_account := none
            balance_after_transaction := some r.2.balance
            status := TransactionStatus.Completed }, true)
      else (b, false)
    else (b, false)

/-- The body of `transaction.atomic()` in the `transfer` view
(transactions/views.py, lines 175-217): fetch both rows with
`select_for_update().get(..., status='Active')` (a miss raises
`Account.DoesNotExist`, caught outside the block with nothing yet
mutated), re-check the locked source balance, then withdraw from the
locked source, deposit to the destination — both return values ignored
— and create one Completed Transfer record with both references and the
source's post-debit balance.  Note the destination object was read
before the source's debit was saved, which the sequential model
reproduces by building both updates from the pre-block state. -/
def transferAtomic (b : Bank) (from_number to_number : String)
    (amount : Int) : Bank × Bool :=
  match b.getActive from_number, b.getActive to_number with
  | some fa, some ta =>
    if fa.balance < amount then (b, false)
    else
      let rw := fa.withdraw amount
      let b1 := b.save rw.2
      let rd := ta.deposit amount
      let b2 := b1.save rd.2
      (b2.record
        { transaction_type := TransactionType.Transfer
          amount := amount
          from_account := some rw.2.account_number
          to_account := some rd.2.account_number
          balance_after_transaction := some rw.2.balance
          status := TransactionStatus.Completed }, true)
  | _, _ => (b, false)

/-- The `transfer` view (transactions/views.py, lines 137-227) on a
valid POST.  Two independent inputs are in play: `logged` is the
session account number which `login_required` resolves and whose
account the atomic block locks and debits (`request.account`,
lines 157 and 177-178); `submitted_from` is whatever
`from_account_number` arrived in the POST body, which is what
`TransferForm.clean` validates (the field's `readonly` widget attribute
is client-side only, so a bound form takes the POSTed value, and
`form.cleaned_data` is never read for the from-number).  The
source≠destination check therefore compares `submitted_from` with the
destination, while the money moves out of the `logged` account. -/
def transferView (b : Bank) (logged submitted_from to_number pin : String)
    (amount : Int) : Bank × Bool :=
  match b.getActive logged with
  | none => (b, false)
  | some from_account =>
    if transferFormValid b submitted_from to_number pin amount then
      transferAtomic b from_account.account_number to_number amount
    else (b, false)

/-- One decimal digit character: `Char.ofNat (48 + d)` for `d < 10`. -/
def digitChar (d : Nat) : Char :=
  Char.ofNat (48 + d % 10)

/-- Fixed-width zero-padded decimal rendering, as produced by
`strftime('%Y%m%d')` for the in-range dates a date of birth can take
(`%Y` four digits, `%m` and `%d` two digits) and by
`''.join(random.choices(string.digits, k=4))` for a suffix drawn as a
number below 10000. -/
def padDecimal (w n : Nat) : String :=
  String.mk (((List.range w).reverse).map fun i => digitChar (n / 10 ^ i))

/-- `self.date_of_birth.strftime('%Y%m%d')` in
`Account.generate_account_number` (accounts/models.py, line 139). -/
def formatYmd (y m d : Nat) : String :=
  padDecimal 4 y ++ padDecimal 2 m ++ padDecimal 2 d

/-- The `while True` retry loop of `Account.generate_account_number`
(accounts/models.py, lines 141-149), with the stream of
`random.choices(string.digits, k=4)` draws modelled by `rnd` (draw `i`
yields the 4-digit string for `rnd i % 10000`) and an explicit fuel
bound standing for the unbounded loop: `none` means the loop has not
returned within `fuel` iterations. -/
def genLoop (dob_str : String) (existing : List String) (rnd : Nat → Nat) :
    Nat → Nat → Option String
  | _, 0 => none
  | i, fuel + 1 =>
    let account_num := dob_str ++ padDecimal 4 (rnd i % 10000)
    if existing.contains account_num then
      genLoop dob_str existing rnd (i + 1) fuel
    else
      some account_num

/-- `Account.generate_account_number` (accounts/models.py, lines
131-149) for a date of birth `(y, m, d)`, against the set `existing` of
already-assigned account numbers. -/
def generate_account_number (y m d : Nat) (existing : List String)
    (rnd : Nat → Nat) (fuel : Nat) : Option String :=
  genLoop (formatYmd y m d) existing rnd 0 fuel

/-- One balance-mutating request against the bank: a withdrawal POST or
a transfer POST, with the caller-supplied request data (the session
account number and the POSTed field values, which may disagree). -/
inductive Op where
  | withdrawal (logged submitted pin : String) (amount : Int)
  | transfer (logged submitted_from to_number pin : String) (amount : Int)

/-- Run one request flow against the database state. -/
def applyOp (b : Bank) : Op → Bank
  | Op.withdrawal logged submitted pin amount =>
    (withdrawView b logged submitted pin amount).1
  | Op.transfer logged submitted_from to_number pin amount =>
    (transferView b logged submitted_from to_number pin amount).1

/-- Run a sequence of request flows. -/
def applyOps (b : Bank) (ops : List Op) : Bank :=
  ops.foldl applyOp b

/-- The global balance invariant: every account row is non-negative. -/
def nonneg (b : Bank) : Prop :=
  ∀ a ∈ b.accounts, 0 ≤ a.balance

/-- A single Active account used to exhibit concrete behaviours. -/
def acctA : Account :=
  { account_number := "199001010001"
    status := Status.Active
    balance := 10000
    pin := "1234" }

/-- A second Active account, distinct from `acctA`. -/
def acctB : Account :=
  { account_number := "199203040002"
    status := Status.Active
    balance := 5000
    pin := "5678" }

/-- An Active account with a negative balance, reachable through the
ledger API because `Account.deposit` performs no sign check
(`acctNeg = (mk 0).deposit (-100)` in spirit). -/
def acctNeg : Account :=
  { account_number := "199001010003"
    status := Status.Active
    balance := -100
    pin := "1234" }

/-- A third Active account, used to exhibit discrepant-form POSTs. -/
def acctC : Account :=
  { account_number := "199505050003"
    status := Status.Active
    balance := 8000
    pin := "9999" }

/-- A two-account database used for concrete scenarios. -/
def bankAB : Bank :=
  { accounts := [acctA, acctB], transactions := [] }

/-- A one-account database used to probe the atomic transfer block. -/
def bankA : Bank :=
  { accounts := [acctA], transactions := [] }

/-- A three-account database used to exhibit a POST whose
`from_account_number` names a third account while the session belongs
to another. -/
def bank3 : Bank :=
  { accounts := [acctA, acctB, acctC], transactions := [] }

/-- The shape invariant of a transaction record: status Completed, a
Deposit populates only the destination reference, a Withdrawal only the
source reference, and a Transfer both, with distinct accounts. -/
def shapeOK (t : Transaction) : Prop :=
  t.status = TransactionStatus.Completed ∧
  (t.transaction_type = TransactionType.Deposit →
    t.from_account = none ∧ t.to_account.isSome) ∧
  (t.transaction_type = TransactionType.Withdrawal →
    t.to_account = none ∧ t.from_account.isSome) ∧
  (t.transaction_type = TransactionType.Transfer →
    ∃ f g, t.from_account = some f ∧ t.to_account = some g ∧ f ≠ g)

/-- The reference-population invariant the code actually guarantees for
every produced record: status Completed, a Deposit populates only the
destination, a Withdrawal only the source, and a Transfer populates
both references — without their accounts necessarily being distinct. -/
def recordShape (t : Transaction) : Prop :=
  t.status = TransactionStatus.Completed ∧
  (t.transaction_type = TransactionType.Deposit →
    t.from_account = none ∧ t.to_account.isSome) ∧
  (t.transaction_type = TransactionType.Withdrawal →
    t.to_account = none ∧ t.from_account.isSome) ∧
  (t.transaction_type = TransactionType.Transfer →
    t.from_account.isSome ∧ t.to_account.isSome)

section Lemmas

/-- If no row carries the key `n`, the Active-filtered lookup misses. -/
theorem find_active_eq_none (l : List Account) (n : String)
    (h : ∀ x ∈ l, x.account_number ≠ n) :
    (l.find? fun a =>
      decide (a.account_number = n) && decide (a.status = Status.Active)) = none := by
  induction l with
  | nil => rfl
  | cons y t ih =>
    have hy : y.account_number ≠ n := h y (by simp)
    rw [List.find?_cons_of_neg]
    · exact ih fun x hx => h x (by simp [hx])
    · simp [hy]

/-- With pairwise-distinct account numbers, the Active-filtered lookup
of the key of a row `a` of the table returns `a` exactly when `a` is
Active, and misses otherwise. -/
theorem find_active_of_mem (l : List Account) (n : String) (a : Account)
    (hnd : (l.map Account.account_number).Nodup)
    (ha : a ∈ l) (hn : a.account_number = n) :
    (l.find? fun x =>
      decide (x.account_number = n) && decide (x.status = Status.Active)) =
      (if a.status = Status.Active then some a else none) := by
  induction l with
  | nil => simp at ha
  | cons y t ih =>
    rw [List.map_cons, List.nodup_cons] at hnd
    rcases List.mem_cons.1 ha with rfl | hat
    · by_cases hs : a.status = Status.Active
      · rw [List.find?_cons_of_pos]
        · simp [hs]
        · simp [hn, hs]
      · rw [List.find?_cons_of_neg]
        · rw [if_neg hs]
          apply find_active_eq_none
          intro x hx hxn
          exact hnd.1 (hn ▸ hxn ▸ List.mem_map_of_mem Account.account_number hx)
        · simp [hs]
    · have hy : y.account_number ≠ n := by
        intro hyn
        exact hnd.1 (hyn ▸ hn ▸ List.mem_map_of_mem Account.account_number hat)
      rw [List.find?_cons_of_neg]
      · exact ih hnd.2 hat
      · simp [hy]

/-- `Bank.getActive` on a table with pairwise-distinct keys. -/
theorem getActive_of_mem (b : Bank) (n : String) (a : Account)
    (hnd : (b.accounts.map Account.account_number).Nodup)
    (ha : a ∈ b.accounts) (hn : a.account_number = n) :
    b.getActive n = (if a.status = Status.Active then some a else none) :=
  find_active_of_mem b.accounts n a hnd ha hn

/-- A successful `Bank.getActive` returns a member row that carries the
requested key and is Active. -/
theorem getActive_spec (b : Bank) (n : String) (a : Account)
    (h : b.getActive n = some a) :
    a ∈ b.accounts ∧ a.account_number = n ∧ a.status = Status.Active := by
  have hm := List.mem_of_find?_eq_some h
  have hp := List.find?_some h
  simp only [Bool.and_eq_true, decide_eq_true_eq] at hp
  exact ⟨hm, hp.1, hp.2⟩

/-- Saving a row does not disturb the column of account numbers. -/
theorem keys_save (l : List Account) (a : Account) :
    ((l.map fun x => if x.account_number = a.account_number then a else x).map
      Account.account_number) = l.map Account.account_number := by
  rw [List.map_map]
  apply List.map_congr_left
  intro x _
  by_cases h : x.account_number = a.account_number <;>
    simp [Function.comp, h]

/-- Saving `a` over a row that carries the same key puts `a` in the
table. -/
theorem mem_save_self (l : List Account) (a a0 : Account)
    (h0 : a0 ∈ l) (hk : a0.account_number = a.account_number) :
    a ∈ l.map fun x => if x.account_number = a.account_number then a else x :=
  List.mem_map.2 ⟨a0, h0, by simp [hk]⟩

/-- Saving `a` leaves every row with a different key untouched. -/
theorem mem_save_other (l : List Account) (a x : Account)
    (hx : x ∈ l) (hk : x.account_number ≠ a.account_number) :
    x ∈ l.map fun y => if y.account_number = a.account_number then a else y :=
  List.mem_map.2 ⟨x, hx, by simp [hk]⟩

/-- Every row of a saved table is the saved row or an original row. -/
theorem mem_save_cases (l : List Account) (a x : Account)
    (hx : x ∈ l.map fun y =>
      if y.account_number = a.account_number then a else y) :
    x = a ∨ x ∈ l := by
  rcases List.mem_map.1 hx with ⟨y, hy, hxy⟩
  by_cases h : y.account_number = a.account_number
  · left; rw [← hxy]; simp [h]
  · right; rw [← hxy]; simpa [h] using hy

/-- Saving rows never touches the transaction table. -/
theorem save_transactions (b : Bank) (a : Account) :
    (b.save a).transactions = b.transactions := rfl

/-- Unfolding lemma for `Bank.getActive`. -/
theorem getActive_def (b : Bank) (n : String) :
    b.getActive n = b.accounts.find? (fun a =>
      decide (a.account_number = n) && decide (a.status = Status.Active)) :=
  rfl

/-- Unfolding lemma for the account table after a save. -/
theorem bank_save_accounts (b : Bank) (a : Account) :
    (b.save a).accounts = b.accounts.map fun x =>
      if x.account_number = a.account_number then a else x := rfl

/-- Recording a transaction never touches the account table. -/
theorem bank_record_accounts (b : Bank) (t : Transaction) :
    (b.record t).accounts = b.accounts := rfl

/-- A deposit flow that does not succeed leaves the database as it
was. -/
theorem depositView_failure (b : Bank) (l s : String) (amount : Int)
    (h : (depositView b l s amount).2 = false) :
    (depositView b l s amount).1 = b := by
  rcases hg : b.getActive l with _ | account
  · simp [depositView, hg]
  · simp only [depositView, hg] at h ⊢
    by_cases hf : depositFormValid b s amount
    · simp [hf] at h
    · simp [hf]

/-- A withdrawal flow that does not succeed leaves the database as it
was. -/
theorem withdrawView_failure (b : Bank) (l s p : String) (amount : Int)
    (h : (withdrawView b l s p amount).2 = false) :
    (withdrawView b l s p amount).1 = b := by
  rcases hg : b.getActive l with _ | account
  · simp [withdrawView, hg]
  · simp only [withdrawView, hg] at h ⊢
    by_cases hf : withdrawFormValid b s p amount
    · simp only [hf, if_true] at h ⊢
      by_cases hw : (account.withdraw amount).1
      · simp [hw] at h
      · simp [hw]
    · simp [hf]

/-- An atomic transfer block that does not succeed leaves the database
as it was (the caught `DoesNotExist` and the balance re-check both
abort before any mutation). -/
theorem transferAtomic_failure (b : Bank) (f g : String) (amount : Int)
    (h : (transferAtomic b f g amount).2 = false) :
    (transferAtomic b f g amount).1 = b := by
  rcases hf : b.getActive f with _ | fa
  · simp [transferAtomic, hf]
  · rcases hg : b.getActive g with _ | ta
    · simp [transferAtomic, hf, hg]
    · simp only [transferAtomic, hf, hg] at h ⊢
      by_cases hb : fa.balance < amount
      · simp [hb]
      · simp [hb] at h

/-- A transfer flow that does not succeed leaves the database as it
was. -/
theorem transferView_failure (b : Bank) (l s g p : String) (amount : Int)
    (h : (transferView b l s g p amount).2 = false) :
    (transferView b l s g p amount).1 = b := by
  rcases hl : b.getActive l with _ | acct
  · simp [transferView, hl]
  · simp only [transferView, hl] at h ⊢
    by_cases hv : transferFormValid b s g p amount
    · simp only [hv, if_true] at h ⊢
      exact transferAtomic_failure b acct.account_number g amount h
    · simp [hv]

end Lemmas

section SuccessLemmas

/-- `withdraw` returns True on an Active account with sufficient
balance. -/
theorem withdraw_true_of (a : Account) (amount : Int)
    (hs : a.status = Status.Active) (hb : amount ≤ a.balance) :
    (a.withdraw amount).1 = true := by
  simp [Account.withdraw, Account.can_withdraw, hs, hb]

/-- `withdraw` debits exactly the amount when it succeeds. -/
theorem withdraw_result_of (a : Account) (amount : Int)
    (hs : a.status = Status.Active) (hb : amount ≤ a.balance) :
    (a.withdraw amount).2 = { a with balance := a.balance - amount } := by
  simp [Account.withdraw, Account.can_withdraw, hs, hb]

/-- `deposit` returns True on an Active account. -/
theorem deposit_true_of (a : Account) (amount : Int)
    (hs : a.status = Status.Active) :
    (a.deposit amount).1 = true := by
  simp [Account.deposit, hs]

/-- `deposit` credits exactly the amount on an Active account. -/
theorem deposit_result_of (a : Account) (amount : Int)
    (hs : a.status = Status.Active) :
    (a.deposit amount).2 = { a with balance := a.balance + amount } := by
  simp [Account.deposit, hs]

/-- What a valid transfer form guarantees. -/
theorem transferFormValid_spec (b : Bank) (f g p : String) (amount : Int)
    (h : transferFormValid b f g p amount = true) :
    1 ≤ amount ∧ amount ≤ 999999999999 ∧ f ≠ g ∧
    (∃ fa, b.getActive f = some fa ∧ fa.pin = p ∧ amount ≤ fa.balance) ∧
    (b.getActive g).isSome := by
  unfold transferFormValid at h
  rcases hf : b.getActive f with _ | fa
  · rw [hf] at h
    simp at h
  · rw [hf] at h
    simp only [Bool.and_eq_true, decide_eq_true_eq] at h
    exact ⟨h.1.1.1.1, h.1.1.1.2, h.1.1.2, ⟨fa, rfl, h.1.2.1, h.1.2.2⟩, h.2⟩

/-- How a successful atomic transfer block decomposes: both rows were
fetched Active, the balance re-check passed, and the result is the two
saves followed by one Transfer record. -/
theorem transferAtomic_success (b : Bank) (f g : String) (amount : Int)
    (h : (transferAtomic b f g amount).2 = true) :
    ∃ fa ta, b.getActive f = some fa ∧ b.getActive g = some ta ∧
      ¬ fa.balance < amount ∧
      (transferAtomic b f g amount).1 =
        ((b.save (fa.withdraw amount).2).save (ta.deposit amount).2).record
          { transaction_type := TransactionType.Transfer
            amount := amount
            from_account := some (fa.withdraw amount).2.account_number
            to_account := some (ta.deposit amount).2.account_number
            balance_after_transaction := some (fa.withdraw amount).2.balance
            status := TransactionStatus.Completed } := by
  rcases hf : b.getActive f with _ | fa
  · simp [transferAtomic, hf] at h
  rcases hg : b.getActive g with _ | ta
  · simp [transferAtomic, hf, hg] at h
  by_cases hb : fa.balance < amount
  · simp [transferAtomic, hf, hg, hb] at h
  · exact ⟨fa, ta, rfl, rfl, hb, by simp [transferAtomic, hf, hg, hb, Bank.record]⟩

/-- A successful transfer flow resolved the session account, had a
valid form, and coincides with the atomic block run on the session
account's number. -/
theorem transferView_success (b : Bank) (l s g p : String) (amount : Int)
    (h : (transferView b l s g p amount).2 = true) :
    ∃ acct, b.getActive l = some acct ∧
      transferFormValid b s g p amount = true ∧
      transferView b l s g p amount =
        transferAtomic b acct.account_number g amount := by
  rcases hl : b.getActive l with _ | acct
  · simp [transferView, hl] at h
  by_cases hform : transferFormValid b s g p amount
  · exact ⟨acct, rfl, hform, by simp [transferView, hl, hform]⟩
  · simp [transferView, hl, hform] at h

/-- `withdraw` and `deposit` never change the row's account number or
status. -/
theorem ledger_preserves_identity (a : Account) (amount : Int) :
    (a.withdraw amount).2.account_number = a.account_number ∧
    (a.withdraw amount).2.status = a.status ∧
    (a.deposit amount).2.account_number = a.account_number ∧
    (a.deposit amount).2.status = a.status := by
  unfold Account.withdraw Account.deposit
  by_cases h1 : a.can_withdraw amount <;>
    by_cases h2 : a.status = Status.Active <;> simp [h1, h2]

end SuccessLemmas

/-- C2: `withdraw(account, amount)` succeeds exactly when the account is
Active and its balance covers the amount — the very condition computed
by the pure predicate `can_withdraw` — and on success the balance
decreases by exactly the amount (nothing else changes), while on
failure the account is untouched. -/
theorem c2_withdraw_guard (a : Account) (amount : Int) :
    ((a.withdraw amount).1 = true ↔
      a.status = Status.Active ∧ a.balance ≥ amount) ∧
    (a.withdraw amount).1 = a.can_withdraw amount ∧
    ((a.withdraw amount).1 = true →
      (a.withdraw amount).2 = { a with balance := a.balance - amount }) ∧
    ((a.withdraw amount).1 = false → (a.withdraw amount).2 = a) := by
  unfold Account.withdraw Account.can_withdraw
  by_cases h1 : a.status = Status.Active <;>
    by_cases h2 : a.balance ≥ amount <;> simp [h1, h2]

/-- C2 witness: on the concrete Active account `acctA` (balance 10000),
withdrawing 5000 succeeds and debits exactly 5000. -/
theorem c2_withdraw_guard_witness :
    (acctA.withdraw 5000).1 = true ∧
    (acctA.withdraw 5000).2 = { acctA with balance := acctA.balance - 5000 } :=
  ⟨(c2_withdraw_guard acctA 5000).1.mpr (by decide),
   (c2_withdraw_guard acctA 5000).2.2.1
     ((c2_withdraw_guard acctA 5000).1.mpr (by decide))⟩

/-- C3: `deposit(account, amount)` succeeds exactly when the account is
Active — independently of the amount, i.e. with no sign check on the
Ledger side — in which case the balance becomes `balance + amount`;
when the account is Inactive or Closed it fails and leaves the account
untouched. -/
theorem c3_deposit_spec (a : Account) (amount : Int) :
    ((a.deposit amount).1 = true ↔ a.status = Status.Active) ∧
    (a.status = Status.Active →
      (a.deposit amount).2 = { a with balance := a.balance + amount }) ∧
    ((a.status = Status.Inactive ∨ a.status = Status.Closed) →
      (a.deposit amount).1 = false ∧ (a.deposit amount).2 = a) := by
  unfold Account.deposit
  by_cases h : a.status = Status.Active <;> simp [h]

/-- C3 witness: the ledger accepts even a negative deposit on the Active
account `acctA`, applying `balance += amount` verbatim. -/
theorem c3_deposit_spec_witness :
    (acctA.deposit (-100)).1 = true ∧
    (acctA.deposit (-100)).2 = { acctA with balance := acctA.balance + (-100) } :=
  ⟨(c3_deposit_spec acctA (-100)).1.mpr (by decide),
   (c3_deposit_spec acctA (-100)).2.1 (by decide)⟩

/-- C7 counterexample: the round-trip law fails as stated on the Active
account `acctNeg` of balance −100 (producible through the ledger API,
since `Account.deposit` performs no sign check): depositing 1 and then
withdrawing 1 leaves balance 0, because the inner withdrawal fails on
the insufficient balance and the deposit is not undone. -/
theorem c7_roundtrip_counterexample :
    acctNeg.status = Status.Active ∧ (0 : Int) < 1 ∧
    ((acctNeg.deposit 1).2.withdraw 1).2.balance ≠ acctNeg.balance := by
  decide

/-- C7 amended: for every Active account whose balance is non-negative
(as every program-reachable balance is) and every positive amount,
deposit followed by withdrawal of the same amount restores the account
exactly. -/
theorem c7_deposit_withdraw_roundtrip (a : Account) (amount : Int)
    (hA : a.status = Status.Active) (_hpos : 0 < amount)
    (hb : 0 ≤ a.balance) :
    ((a.deposit amount).2.withdraw amount).2 = a := by
  have h1 : (a.deposit amount).2 = { a with balance := a.balance + amount } := by
    simp [Account.deposit, hA]
  rw [h1]
  have h2 : ({ a with balance := a.balance + amount } : Account).can_withdraw
      amount = true := by
    simp [Account.can_withdraw, hA]
    omega
  simp only [Account.withdraw, h2, if_pos]
  cases a
  simp

/-- C7 witness: on the concrete account `acctA` (Active, balance 10000),
deposit of 100 followed by withdrawal of 100 restores the account. -/
theorem c7_deposit_withdraw_roundtrip_witness :
    ((acctA.deposit 100).2.withdraw 100).2 = acctA :=
  c7_deposit_withdraw_roundtrip acctA 100 (by decide) (by decide) (by decide)

/-- C1: for every pair of distinct Active accounts A and B in a
database with pairwise-distinct account numbers and every amount X
accepted by the form (`0.01 ≤ X ≤ 9999999999.99`, here in cents) with
`X ≤ A.balance`, a transfer POST made from A's session whose submitted
from-number resolves to an Active account C with matching PIN and
covering balance (in particular the unmodified-client case C = A, but
any validating POST is covered) succeeds, debits A by exactly X,
credits B by exactly X, and creates exactly one Completed Transfer
record referencing A and B whose balance_after_transaction is A's
post-debit balance; and any transfer flow that fails, for any reason,
leaves the database unchanged — no balance change and no record. -/
theorem c1_transfer_correct (b : Bank) (A B C : Account) (s pin : String)
    (X : Int)
    (hnd : (b.accounts.map Account.account_number).Nodup)
    (hA : A ∈ b.accounts) (hB : B ∈ b.accounts)
    (hne : A.account_number ≠ B.account_number)
    (hAs : A.status = Status.Active) (hBs : B.status = Status.Active)
    (hC : b.getActive s = some C)
    (hCpin : C.pin = pin) (hCbal : X ≤ C.balance)
    (hsne : s ≠ B.account_number)
    (h1 : 1 ≤ X) (hcap : X ≤ 999999999999) (hbal : X ≤ A.balance) :
    (transferView b A.account_number s B.account_number pin X).2 = true ∧
    (transferView b A.account_number s B.account_number pin
      X).1.getActive A.account_number =
      some { A with balance := A.balance - X } ∧
    (transferView b A.account_number s B.account_number pin
      X).1.getActive B.account_number =
      some { B with balance := B.balance + X } ∧
    (transferView b A.account_number s B.account_number pin
      X).1.transactions =
      Transaction.mk TransactionType.Transfer X (some A.account_number)
        (some B.account_number) (some (A.balance - X))
        TransactionStatus.Completed :: b.transactions ∧
    (∀ b0 l fs g p a, (transferView b0 l fs g p a).2 = false →
      (transferView b0 l fs g p a).1 = b0) := by
  have hgA : b.getActive A.account_number = some A := by
    rw [getActive_of_mem b A.account_number A hnd hA rfl, if_pos hAs]
  have hgB : b.getActive B.account_number = some B := by
    rw [getActive_of_mem b B.account_number B hnd hB rfl, if_pos hBs]
  have hform : transferFormValid b s B.account_number pin X = true := by
    unfold transferFormValid
    rw [hC, hgB]
    simp [hsne, hCpin, h1, hcap, hCbal]
  have hlt : ¬ A.balance < X := by omega
  set A1 : Account := { A with balance := A.balance - X } with hA1def
  set B1 : Account := { B with balance := B.balance + X } with hB1def
  set tx : Transaction := Transaction.mk TransactionType.Transfer X
    (some A.account_number) (some B.account_number) (some (A.balance - X))
    TransactionStatus.Completed with htxdef
  have hA1n : A1.account_number = A.account_number := by rw [hA1def]
  have hB1n : B1.account_number = B.account_number := by rw [hB1def]
  have hA1s : A1.status = Status.Active := by rw [hA1def]; exact hAs
  have hB1s : B1.status = Status.Active := by rw [hB1def]; exact hBs
  have hwA : A.withdraw X = (true, A1) := by
    simp [Account.withdraw, Account.can_withdraw, hAs, hbal, hA1def]
  have hdB : B.deposit X = (true, B1) := by
    simp [Account.deposit, hBs, hB1def]
  have hatomic : transferAtomic b A.account_number B.account_number X =
      (((b.save A1).save B1).record tx, true) := by
    simp only [transferAtomic, hgA, hgB, hwA, hdB, if_neg hlt]
  have hview : transferView b A.account_number s B.account_number pin X =
      (((b.save A1).save B1).record tx, true) := by
    rw [← hatomic]
    simp only [transferView, hgA, hform, if_true]
  have hv1 : (transferView b A.account_number s B.account_number pin X).1 =
      ((b.save A1).save B1).record tx := by rw [hview]
  have hv2 : (transferView b A.account_number s B.account_number pin X).2 =
      true := by rw [hview]
  have hacc2 : (((b.save A1).save B1).record tx).accounts =
      (b.accounts.map fun x =>
        if x.account_number = A1.account_number then A1 else x).map fun x =>
        if x.account_number = B1.account_number then B1 else x := rfl
  have hnd2 : ((((b.accounts.map fun x =>
      if x.account_number = A1.account_number then A1 else x).map fun x =>
      if x.account_number = B1.account_number then B1 else x)).map
      Account.account_number).Nodup := by
    rw [keys_save, keys_save]
    exact hnd
  have hmemA1 : A1 ∈ ((b.accounts.map fun x =>
      if x.account_number = A1.account_number then A1 else x).map fun x =>
      if x.account_number = B1.account_number then B1 else x) :=
    mem_save_other _ _ _
      (mem_save_self b.accounts A1 A hA hA1n.symm)
      (by rw [hA1n, hB1n]; exact hne)
  have hmemB1 : B1 ∈ ((b.accounts.map fun x =>
      if x.account_number = A1.account_number then A1 else x).map fun x =>
      if x.account_number = B1.account_number then B1 else x) :=
    mem_save_self _ B1 B
      (mem_save_other _ _ B hB (by rw [hA1n]; exact Ne.symm hne))
      hB1n.symm
  refine ⟨hv2, ?_, ?_, by rw [hv1]; rfl, fun b0 l fs g p a h =>
    transferView_failure b0 l fs g p a h⟩
  · rw [hv1, getActive_def, hacc2,
      find_active_of_mem _ A.account_number A1 hnd2 hmemA1 hA1n,
      if_pos hA1s]
  · rw [hv1, getActive_def, hacc2,
      find_active_of_mem _ B.account_number B1 hnd2 hmemB1 hB1n,
      if_pos hB1s]

/-- C1 witness: the spec's concrete scenario in cents — accounts at
100.00 and 50.00, an honest POST (submitted from-number equal to the
session account), transfer of 30.00 — succeeds with balances 70.00 and
80.00 and exactly one Transfer record with
balance_after_transaction 70.00. -/
theorem c1_transfer_correct_witness :
    (transferView bankAB "199001010001" "199001010001" "199203040002"
      "1234" 3000).2 = true ∧
    (transferView bankAB "199001010001" "199001010001" "199203040002"
      "1234" 3000).1.getActive "199001010001" =
      some { acctA with balance := acctA.balance - 3000 } ∧
    (transferView bankAB "199001010001" "199001010001" "199203040002"
      "1234" 3000).1.getActive "199203040002" =
      some { acctB with balance := acctB.balance + 3000 } ∧
    (transferView bankAB "199001010001" "199001010001" "199203040002"
      "1234" 3000).1.transactions =
      Transaction.mk TransactionType.Transfer 3000 (some "199001010001")
        (some "199203040002") (some (acctA.balance - 3000))
        TransactionStatus.Completed :: bankAB.transactions ∧
    (∀ b0 l fs g p a, (transferView b0 l fs g p a).2 = false →
      (transferView b0 l fs g p a).1 = b0) :=
  c1_transfer_correct bankAB acctA acctB acctA "199001010001" "1234" 3000
    (by decide) (by decide) (by decide) (by decide) (by decide) (by decide)
    (by decide) (by decide) (by decide) (by decide) (by decide) (by decide)
    (by decide)

/-- C4 counterexample: the under-lock phase of the transfer does NOT
re-validate that source and destination differ.  Entering the atomic
block of `transfer` with the same account number on both sides (one
Active account, balance 10000, amount 5000, so the balance re-check
passes) proceeds to mutate and record instead of aborting — and the
stale destination read even turns the self-transfer into a net credit
of 5000.  (Through the full view this is unreachable: the only
source≠destination check lives in `TransferForm.clean`, before the
lock.) -/
theorem c4_lock_recheck_counterexample :
    (transferAtomic bankA "199001010001" "199001010001" 5000).2 = true ∧
    (transferAtomic bankA "199001010001" "199001010001"
      5000).1.transactions.length = 1 ∧
    (transferAtomic bankA "199001010001" "199001010001" 5000).1.getActive
      "199001010001" = some { acctA with balance := 15000 } := by
  decide

/-- C4 amended: after acquiring the locks the transfer re-validates only
that both accounts are Active (via the `status='Active'` filter on the
locked fetches, whose miss aborts the block) and that the locked source
balance covers the amount; when this re-validation fails the unit of
work aborts with no side effects — no debit, no credit, no record.
The source≠destination check is performed earlier, in form validation
of the POSTed from-number before any locking, and is not re-validated
under the lock; when the submitted from-number equals the session
account — the only value an unmodified client submits — a transfer
between the account and itself is rejected before any mutation, but a
discrepant POST (a third Active account's number and PIN submitted as
the from-number, with the session account as destination) passes the
form and reaches the atomic block with source equal to destination. -/
theorem c4_lock_recheck_amended (b : Bank) (f g p : String) (amount : Int) :
    ((transferAtomic b f g amount).2 = false →
      (transferAtomic b f g amount).1 = b) ∧
    (∀ fa, b.getActive f = some fa → fa.balance < amount →
      transferAtomic b f g amount = (b, false)) ∧
    (b.getActive f = none → transferAtomic b f g amount = (b, false)) ∧
    (b.getActive g = none → transferAtomic b f g amount = (b, false)) ∧
    transferView b f f f p amount = (b, false) := by
  refine ⟨transferAtomic_failure b f g amount, ?_, ?_, ?_, ?_⟩
  · intro fa hf hlt
    rcases hg : b.getActive g with _ | ta <;>
      simp [transferAtomic, hf, hg, hlt]
  · intro hf
    simp [transferAtomic, hf]
  · intro hg
    rcases hf : b.getActive f with _ | fa <;>
      simp [transferAtomic, hf, hg]
  · rcases hf : b.getActive f with _ | fa
    · simp [transferView, hf]
    · have hform : transferFormValid b f f p amount = false := by
        simp [transferFormValid]
      simp [transferView, hf, hform]

/-- C4 witness: re-validation failure aborting with no side effects, on
the concrete database `bankAB` with an amount exceeding the locked
source balance. -/
theorem c4_lock_recheck_amended_witness :
    transferAtomic bankAB "199001010001" "199203040002" 20000 =
      (bankAB, false) :=
  (c4_lock_recheck_amended bankAB "199001010001" "199203040002" "1234"
    20000).2.1 acctA (by decide) (by decide)

/-- C5: in each of the deposit, withdrawal and transfer flows a
Transaction record is created only when the corresponding Ledger
operation reports success, and a flow that does not succeed (for
example a withdrawal whose amount exceeds the balance) leaves the
database — balances and transaction table alike — unchanged.  The
recording step itself is the unconditional `Transaction.objects.create`
and never decides success. -/
theorem c5_record_only_after_success (b : Bank)
    (logged submitted pin f g : String) (amount : Int) (account : Account)
    (hacct : b.getActive logged = some account) :
    ((depositView b logged submitted amount).2 = false →
      (depositView b logged submitted amount).1 = b) ∧
    ((depositView b logged submitted amount).2 = true →
      (account.deposit amount).1 = true ∧
      ∃ t, (depositView b logged submitted amount).1.transactions =
        t :: b.transactions) ∧
    ((withdrawView b logged submitted pin amount).2 = false →
      (withdrawView b logged submitted pin amount).1 = b) ∧
    ((withdrawView b logged submitted pin amount).2 = true →
      (account.withdraw amount).1 = true ∧
      ∃ t, (withdrawView b logged submitted pin amount).1.transactions =
        t :: b.transactions) ∧
    ((transferView b logged f g pin amount).2 = false →
      (transferView b logged f g pin amount).1 = b) ∧
    ((transferView b logged f g pin amount).2 = true →
      ∃ fa ta, b.getActive logged = some fa ∧ b.getActive g = some ta ∧
        (fa.withdraw amount).1 = true ∧ (ta.deposit amount).1 = true ∧
        ∃ t, (transferView b logged f g pin amount).1.transactions =
          t :: b.transactions) := by
  have hAct := (getActive_spec b logged account hacct).2.2
  refine ⟨depositView_failure b logged submitted amount, ?_,
    withdrawView_failure b logged submitted pin amount, ?_,
    transferView_failure b logged f g pin amount, ?_⟩
  · intro hs
    refine ⟨deposit_true_of account amount hAct, ?_⟩
    by_cases hform : depositFormValid b submitted amount
    · simp only [depositView, hacct, hform, if_true]
      exact ⟨_, rfl⟩
    · simp [depositView, hacct, hform] at hs
  · intro hs
    by_cases hform : withdrawFormValid b submitted pin amount
    · by_cases hw : (account.withdraw amount).1
      · refine ⟨hw, ?_⟩
        simp only [withdrawView, hacct, hform, hw, if_true]
        exact ⟨_, rfl⟩
      · simp [withdrawView, hacct, hform, hw] at hs
    · simp [withdrawView, hacct, hform] at hs
  · intro hs
    obtain ⟨acct, hacct2, hform, hveq⟩ :=
      transferView_success b logged f g pin amount hs
    have hs2 : (transferAtomic b acct.account_number g amount).2 = true := by
      rw [← hveq]
      exact hs
    rcases transferAtomic_success b acct.account_number g amount hs2 with
      ⟨fa, ta, hf2, hg2, hb2, heq⟩
    have hnum : acct.account_number = logged :=
      (getActive_spec b logged acct hacct2).2.1
    rw [hnum] at hf2
    have hfaA := (getActive_spec b logged fa hf2).2.2
    have htaA := (getActive_spec b g ta hg2).2.2
    refine ⟨fa, ta, hf2, hg2,
      withdraw_true_of fa amount hfaA (by omega),
      deposit_true_of ta amount htaA, ?_⟩
    have hv1 : (transferView b logged f g pin amount).1 =
        (transferAtomic b acct.account_number g amount).1 := by
      rw [hveq]
    rw [hv1, heq]
    exact ⟨_, rfl⟩

/-- C5 witness: the concrete scenario — withdrawing 150.00 from account
`acctA` (Active, balance 100.00) fails and leaves the whole database,
balances and transaction table alike, unchanged. -/
theorem c5_record_only_after_success_witness :
    (withdrawView bankAB "199001010001" "199001010001" "1234" 15000).1 =
      bankAB :=
  (c5_record_only_after_success bankAB "199001010001" "199001010001" "1234"
    "199001010001" "199203040002" 15000 acctA (by decide)).2.2.1 (by decide)

/-- C9 counterexample: a Transfer record produced by a core flow whose
two references are NOT distinct.  In the three-account database
`bank3`, a POST from the session of account 199001010001 that submits
the third Active account 199505050003 (with that account's PIN) as
`from_account_number` and the session's own number as destination
passes `TransferForm.clean`, and the atomic block then self-transfers
on the session account: the flow succeeds and creates one Completed
Transfer record with `from_account = to_account = 199001010001` — and
the stale destination read nets the account a credit of the amount. -/
theorem c9_shape_counterexample :
    (transferView bank3 "199001010001" "199505050003" "199001010001"
      "9999" 1000).2 = true ∧
    ((transferView bank3 "199001010001" "199505050003" "199001010001"
      "9999" 1000).1.transactions.map fun t =>
        (t.transaction_type, t.from_account, t.to_account)) =
      [(TransactionType.Transfer, some "199001010001",
        some "199001010001")] ∧
    (transferView bank3 "199001010001" "199505050003" "199001010001"
      "9999" 1000).1.getActive "199001010001" =
      some { acctA with balance := 11000 } := by
  decide

/-- C9 amended: every record produced by the core flows is created with
status Completed and is never updated or deleted (each flow leaves the
prior transaction table as an untouched suffix); a Deposit record
populates only the destination reference and a Withdrawal only the
source reference; a Transfer record populates both references — with
distinct accounts whenever the POSTed from-number equals the session
account (the only value an unmodified client submits), while a
discrepant POST can produce a Transfer record whose two references are
the same account. -/
theorem c9_transaction_shape_amended (b : Bank) (l s p fs g : String)
    (amount : Int) :
    (∃ ts, (depositView b l s amount).1.transactions = ts ++ b.transactions ∧
      ∀ t ∈ ts, shapeOK t) ∧
    (∃ ts, (withdrawView b l s p amount).1.transactions =
      ts ++ b.transactions ∧ ∀ t ∈ ts, shapeOK t) ∧
    (∃ ts, (transferView b l fs g p amount).1.transactions =
      ts ++ b.transactions ∧ ∀ t ∈ ts, recordShape t) ∧
    (fs = l → ∃ ts, (transferView b l fs g p amount).1.transactions =
      ts ++ b.transactions ∧ ∀ t ∈ ts, shapeOK t) := by
  refine ⟨?_, ?_, ?_, ?_⟩
  · by_cases h2 : (depositView b l s amount).2 = true
    · rcases hacct : b.getActive l with _ | account
      · simp [depositView, hacct] at h2
      by_cases hform : depositFormValid b s amount
      · simp only [depositView, hacct, hform, if_true]
        refine ⟨[_], rfl, ?_⟩
        intro t ht
        rw [List.mem_singleton] at ht
        subst ht
        simp [shapeOK]
      · simp [depositView, hacct, hform] at h2
    · rw [Bool.not_eq_true] at h2
      exact ⟨[], by simp [depositView_failure b l s amount h2], by simp⟩
  · by_cases h2 : (withdrawView b l s p amount).2 = true
    · rcases hacct : b.getActive l with _ | account
      · simp [withdrawView, hacct] at h2
      by_cases hform : withdrawFormValid b s p amount
      · by_cases hw : (account.withdraw amount).1
        · simp only [withdrawView, hacct, hform, hw, if_true]
          refine ⟨[_], rfl, ?_⟩
          intro t ht
          rw [List.mem_singleton] at ht
          subst ht
          simp [shapeOK]
        · simp [withdrawView, hacct, hform, hw] at h2
      · simp [withdrawView, hacct, hform] at h2
    · rw [Bool.not_eq_true] at h2
      exact ⟨[], by simp [withdrawView_failure b l s p amount h2], by simp⟩
  · by_cases h2 : (transferView b l fs g p amount).2 = true
    · obtain ⟨acct, hacct, hform, hveq⟩ :=
        transferView_success b l fs g p amount h2
      have hs2 : (transferAtomic b acct.account_number g amount).2 =
          true := by
        rw [← hveq]
        exact h2
      rcases transferAtomic_success b acct.account_number g amount hs2 with
        ⟨fa, ta, hf2, hg2, hb2, heq⟩
      have hv1 : (transferView b l fs g p amount).1 =
          (transferAtomic b acct.account_number g amount).1 :=
        congrArg Prod.fst hveq
      refine ⟨[Transaction.mk TransactionType.Transfer amount
        (some (fa.withdraw amount).2.account_number)
        (some (ta.deposit amount).2.account_number)
        (some (fa.withdraw amount).2.balance)
        TransactionStatus.Completed], ?_, ?_⟩
      · rw [hv1, heq]
        rfl
      · intro t ht
        rw [List.mem_singleton] at ht
        subst ht
        exact ⟨rfl, by simp, by simp, fun _ => by simp⟩
    · rw [Bool.not_eq_true] at h2
      exact ⟨[], by simp [transferView_failure b l fs g p amount h2],
        by simp⟩
  · intro hfl
    by_cases h2 : (transferView b l fs g p amount).2 = true
    · obtain ⟨acct, hacct, hform, hveq⟩ :=
        transferView_success b l fs g p amount h2
      have hs2 : (transferAtomic b acct.account_number g amount).2 =
          true := by
        rw [← hveq]
        exact h2
      rcases transferAtomic_success b acct.account_number g amount hs2 with
        ⟨fa, ta, hf2, hg2, hb2, heq⟩
      have hfspec := getActive_spec b acct.account_number fa hf2
      have hgspec := getActive_spec b g ta hg2
      have hnum : acct.account_number = l :=
        (getActive_spec b l acct hacct).2.1
      have hne0 : fs ≠ g :=
        (transferFormValid_spec b fs g p amount hform).2.2.1
      have hv1 : (transferView b l fs g p amount).1 =
          (transferAtomic b acct.account_number g amount).1 :=
        congrArg Prod.fst hveq
      refine ⟨[Transaction.mk TransactionType.Transfer amount
        (some (fa.withdraw amount).2.account_number)
        (some (ta.deposit amount).2.account_number)
        (some (fa.withdraw amount).2.balance)
        TransactionStatus.Completed], ?_, ?_⟩
      · rw [hv1, heq]
        rfl
      · intro t ht
        rw [List.mem_singleton] at ht
        subst ht
        refine ⟨rfl, by simp, by simp, fun _ => ?_⟩
        refine ⟨(fa.withdraw amount).2.account_number,
          (ta.deposit amount).2.account_number, rfl, rfl, ?_⟩
        rw [(ledger_preserves_identity fa amount).1,
          (ledger_preserves_identity ta amount).2.2.1,
          hfspec.2.1, hgspec.2.1, hnum, ← hfl]
        exact hne0
    · rw [Bool.not_eq_true] at h2
      exact ⟨[], by simp [transferView_failure b l fs g p amount h2],
        by simp⟩

/-- C9 witness: the amended shape and append-only guarantees
instantiated on the concrete database `bankAB` with a deposit, a
withdrawal and an honest transfer of 100 from `acctA` to `acctB`,
discharging the honest-POST hypothesis. -/
theorem c9_transaction_shape_amended_witness :
    (∃ ts, (depositView bankAB "199001010001" "199001010001"
      100).1.transactions = ts ++ bankAB.transactions ∧
      ∀ t ∈ ts, shapeOK t) ∧
    (∃ ts, (withdrawView bankAB "199001010001" "199001010001" "1234"
      100).1.transactions = ts ++ bankAB.transactions ∧
      ∀ t ∈ ts, shapeOK t) ∧
    (∃ ts, (transferView bankAB "199001010001" "199001010001"
      "199203040002" "1234" 100).1.transactions =
      ts ++ bankAB.transactions ∧ ∀ t ∈ ts, recordShape t) ∧
    (("199001010001" : String) = "199001010001" →
      ∃ ts, (transferView bankAB "199001010001" "199001010001"
        "199203040002" "1234" 100).1.transactions =
        ts ++ bankAB.transactions ∧ ∀ t ∈ ts, shapeOK t) :=
  c9_transaction_shape_amended bankAB "199001010001" "199001010001" "1234"
    "199001010001" "199203040002" 100

/-- Fixed-width decimal rendering has the requested width. -/
theorem padDecimal_length (w n : Nat) : (padDecimal w n).length = w := by
  simp [padDecimal, String.length]

/-- The characters of a fixed-width decimal rendering. -/
theorem padDecimal_data (w n : Nat) :
    (padDecimal w n).data =
      ((List.range w).reverse).map fun i => digitChar (n / 10 ^ i) := rfl

/-- Every digit character is a decimal digit. -/
theorem digitChar_isDigit (k : Nat) : (digitChar k).isDigit = true := by
  have h : k % 10 < 10 := Nat.mod_lt _ (by norm_num)
  unfold digitChar
  revert h
  generalize k % 10 = r
  intro h
  interval_cases r <;> decide

/-- Every character of a fixed-width decimal rendering is a decimal
digit. -/
theorem padDecimal_digits (w n : Nat) :
    ∀ c ∈ (padDecimal w n).data, c.isDigit = true := by
  intro c hc
  rw [padDecimal_data] at hc
  rcases List.mem_map.1 hc with ⟨i, _, rfl⟩
  exact digitChar_isDigit _

/-- The formatted date of birth is eight characters long. -/
theorem formatYmd_length (y m d : Nat) : (formatYmd y m d).length = 8 := by
  simp [formatYmd, String.length_append, padDecimal_length]

/-- Every character of the formatted date of birth is a decimal
digit. -/
theorem formatYmd_digits (y m d : Nat) :
    ∀ c ∈ (formatYmd y m d).data, c.isDigit = true := by
  intro c hc
  simp only [formatYmd, String.data_append, List.mem_append] at hc
  rcases hc with (hc | hc) | hc <;> exact padDecimal_digits _ _ c hc

/-- Whatever the retry loop of `generate_account_number` returns is the
date prefix followed by a four-digit suffix, and is absent from the
existing set. -/
theorem genLoop_spec (dob : String) (existing : List String)
    (rnd : Nat → Nat) :
    ∀ fuel i s, genLoop dob existing rnd i fuel = some s →
      (∃ k, k < 10000 ∧ s = dob ++ padDecimal 4 k) ∧
      existing.contains s = false := by
  intro fuel
  induction fuel with
  | zero =>
    intro i s h
    simp [genLoop] at h
  | succ fuel ih =>
    intro i s h
    simp only [genLoop] at h
    by_cases hc : existing.contains (dob ++ padDecimal 4 (rnd i % 10000)) = true
    · rw [if_pos hc] at h
      exact ih (i + 1) s h
    · rw [if_neg hc] at h
      cases h
      exact ⟨⟨rnd i % 10000, Nat.mod_lt _ (by norm_num), rfl⟩,
        Bool.not_eq_true _ ▸ hc⟩

/-- A successful `withdraw` implies its guard held, and the debit is
exact. -/
theorem withdraw_success_bounds (a : Account) (amount : Int)
    (h : (a.withdraw amount).1 = true) :
    a.status = Status.Active ∧ amount ≤ a.balance ∧
    (a.withdraw amount).2.balance = a.balance - amount := by
  unfold Account.withdraw Account.can_withdraw at *
  by_cases h1 : a.status = Status.Active <;>
    by_cases h2 : a.balance ≥ amount <;> simp [h1, h2] at h ⊢

/-- Saving a non-negative row into a non-negative table keeps every row
non-negative. -/
theorem nonneg_save (b : Bank) (a : Account) (h : nonneg b)
    (ha : 0 ≤ a.balance) : nonneg (b.save a) := by
  intro x hx
  rcases mem_save_cases b.accounts a x hx with rfl | hx0
  · exact ha
  · exact h x hx0

/-- The withdrawal flow preserves the non-negative balance invariant. -/
theorem nonneg_withdrawView (b : Bank) (l s p : String) (amount : Int)
    (h : nonneg b) : nonneg (withdrawView b l s p amount).1 := by
  by_cases h2 : (withdrawView b l s p amount).2 = true
  · rcases hacct : b.getActive l with _ | account
    · simp [withdrawView, hacct] at h2
    by_cases hform : withdrawFormValid b s p amount
    · by_cases hw : (account.withdraw amount).1
      · simp only [withdrawView, hacct, hform, hw, if_true]
        intro x hx
        rcases mem_save_cases b.accounts (account.withdraw amount).2 x hx with
          rfl | hx0
        · obtain ⟨_, hle, hb⟩ := withdraw_success_bounds account amount hw
          omega
        · exact h x hx0
      · simp [withdrawView, hacct, hform, hw]
        exact h
    · simp [withdrawView, hacct, hform]
      exact h
  · rw [Bool.not_eq_true] at h2
    rw [withdrawView_failure b l s p amount h2]
    exact h

/-- The transfer flow preserves the non-negative balance invariant. -/
theorem nonneg_transferView (b : Bank) (l s g p : String) (amount : Int)
    (h : nonneg b) : nonneg (transferView b l s g p amount).1 := by
  by_cases h2 : (transferView b l s g p amount).2 = true
  · obtain ⟨acct, hacct, hform, hveq⟩ :=
      transferView_success b l s g p amount h2
    have hs2 : (transferAtomic b acct.account_number g amount).2 = true := by
      rw [← hveq]
      exact h2
    rcases transferAtomic_success b acct.account_number g amount hs2 with
      ⟨fa, ta, hf2, hg2, hb2, heq⟩
    have hv1 : (transferView b l s g p amount).1 =
        (transferAtomic b acct.account_number g amount).1 :=
      congrArg Prod.fst hveq
    rw [hv1, heq]
    have hfspec := getActive_spec b acct.account_number fa hf2
    have htspec := getActive_spec b g ta hg2
    have hamt : 1 ≤ amount := (transferFormValid_spec b s g p amount hform).1
    have hwbal : (fa.withdraw amount).2.balance = fa.balance - amount := by
      rw [withdraw_result_of fa amount hfspec.2.2 (by omega)]
    have hdbal : (ta.deposit amount).2.balance = ta.balance + amount := by
      rw [deposit_result_of ta amount htspec.2.2]
    intro x hx
    rcases mem_save_cases _ (ta.deposit amount).2 x hx with rfl | hx1
    · have := h ta htspec.1
      omega
    · rcases mem_save_cases b.accounts (fa.withdraw amount).2 x hx1 with
        rfl | hx0
      · omega
      · exact h x hx0
  · rw [Bool.not_eq_true] at h2
    rw [transferView_failure b l s g p amount h2]
    exact h

/-- C6: starting from any database in which every balance is
non-negative, no sequence of withdrawal and transfer requests ever
drives any balance negative — the invariant is preserved by every
withdraw and transfer flow. -/
theorem c6_balance_nonneg (b : Bank) (ops : List Op) (h : nonneg b) :
    nonneg (applyOps b ops) := by
  induction ops generalizing b with
  | nil => exact h
  | cons op rest ih =>
    simp only [applyOps, List.foldl_cons]
    cases op with
    | withdrawal l s p amount =>
      exact ih (applyOp b (Op.withdrawal l s p amount))
        (nonneg_withdrawView b l s p amount h)
    | transfer l s g p amount =>
      exact ih (applyOp b (Op.transfer l s g p amount))
        (nonneg_transferView b l s g p amount h)

/-- C6 witness: a concrete two-request sequence — a withdrawal of 100
and a transfer of 200 — on the concrete database `bankAB` keeps every
balance non-negative. -/
theorem c6_balance_nonneg_witness :
    nonneg (applyOps bankAB
      [Op.withdrawal "199001010001" "199001010001" "1234" 100,
       Op.transfer "199001010001" "199001010001" "199203040002" "1234"
         200]) :=
  c6_balance_nonneg bankAB
    [Op.withdrawal "199001010001" "199001010001" "1234" 100,
     Op.transfer "199001010001" "199001010001" "199203040002" "1234" 200]
    (by unfold nonneg; decide)

/-- C8: every value `generate_account_number` returns for a date of
birth `(y, m, d)` is a 12-character numeric string whose first 8
characters are the date formatted as YYYYMMDD, whose remaining 4
characters are decimal digits, and which is not among the existing
account numbers at the time it is returned — so generation against
already-assigned numbers never yields a duplicate. -/
theorem c8_generate_account_number (y m d : Nat) (existing : List String)
    (rnd : Nat → Nat) (fuel : Nat) (s : String)
    (h : generate_account_number y m d existing rnd fuel = some s) :
    s.length = 12 ∧
    s.data.take 8 = (formatYmd y m d).data ∧
    (∀ c ∈ s.data, c.isDigit = true) ∧
    s ∉ existing := by
  obtain ⟨⟨k, hk, rfl⟩, hcontains⟩ :=
    genLoop_spec (formatYmd y m d) existing rnd fuel 0 s h
  have hdl : ((formatYmd y m d).data).length = 8 := formatYmd_length y m d
  refine ⟨?_, ?_, ?_, ?_⟩
  · rw [String.length_append, formatYmd_length, padDecimal_length]
  · rw [String.data_append]
    exact List.take_left' hdl
  · intro c hc
    rw [String.data_append, List.mem_append] at hc
    rcases hc with hc | hc
    · exact formatYmd_digits y m d c hc
    · exact padDecimal_digits 4 k c hc
  · simpa using hcontains

/-- C8 witness: generating for date of birth 1990-01-01 with the suffix
stream 0, 1, 2, … against the already-assigned number 199001010000
retries past the collision and returns the fresh 12-digit number
199001010001, which satisfies all four properties. -/
theorem c8_generate_account_number_witness :
    ("199001010001" : String).length = 12 ∧
    ("199001010001" : String).data.take 8 = (formatYmd 1990 1 1).data ∧
    (∀ c ∈ ("199001010001" : String).data, c.isDigit = true) ∧
    ("199001010001" : String) ∉ ["199001010000"] :=
  c8_generate_account_number 1990 1 1 ["199001010000"] (fun i => i) 2
    "199001010001" (by decide)

/-- C10: once the transfer's under-lock re-check passes — both rows
fetched by the Active-filtered locked lookup and the locked source
balance covering the amount — the subsequent `withdraw` on the locked
source and `deposit` on the destination both return True (their failure
branches are unreachable), and the atomic block completes. -/
theorem c10_locked_ops_succeed (b : Bank) (f g : String) (amount : Int)
    (fa ta : Account)
    (hf : b.getActive f = some fa)
    (hg : b.getActive g = some ta)
    (hbal : ¬ fa.balance < amount) :
    (fa.withdraw amount).1 = true ∧ (ta.deposit amount).1 = true ∧
    (transferAtomic b f g amount).2 = true := by
  have hfa := getActive_spec b f fa hf
  have hta := getActive_spec b g ta hg
  have hle : amount ≤ fa.balance := by omega
  have hw : (fa.withdraw amount).1 = true := by
    simp [Account.withdraw, Account.can_withdraw, hfa.2.2, hle]
  have hd : (ta.deposit amount).1 = true := by
    simp [Account.deposit, hta.2.2]
  refine ⟨hw, hd, ?_⟩
  simp only [transferAtomic, hf, hg]
  simp [hbal]

/-- C10 witness: in the concrete two-account database `bankAB`, with a
transfer of 100 from `acctA` to `acctB`, both locked ledger operations
succeed and the atomic block completes. -/
theorem c10_locked_ops_succeed_witness :
    (acctA.withdraw 100).1 = true ∧ (acctB.deposit 100).1 = true ∧
    (transferAtomic bankAB "199001010001" "199203040002" 100).2 = true :=
  c10_locked_ops_succeed bankAB "199001010001" "199203040002" 100 acctA acctB
    (by decide) (by decide) (by decide)

end BankApp
